import Mathlib

/-!
Verification of the core pipeline of the Evolution LLM Assistant
(configuration store, prompt extractor, request builder, response
interpreter, model lister).

The C sources `config/config.c` and `src/llm_client.c` are shallowly
embedded here.  C strings become `List Char`; nullable pointers become
`Option`; the glib helpers (`strstr`, `strchr`, `g_strstrip`,
`g_str_has_prefix`, `g_str_has_suffix`) are modelled directly; the
json-glib accessors are modelled with their documented behaviour of
returning NULL (here `none`) when a member is missing or has the wrong
type, rather than aborting.  Network transport is modelled as an
explicit `Option Json` argument: `none` is a transport or JSON-parse
failure, `some doc` is a successfully parsed response body.
-/

namespace EvoLLM

/-- The whitespace characters recognised by `g_ascii_isspace`, which
`g_strstrip` uses. -/
def isAsciiSpace (c : Char) : Bool :=
  c == ' ' || c == '\t' || c == '\n' || c == '\r' || c == '\x0b' || c == '\x0c'

/-- `g_strchug`: remove leading whitespace in place. -/
def gStrchug (s : List Char) : List Char :=
  s.dropWhile isAsciiSpace

/-- `g_strchomp`: remove trailing whitespace in place. -/
def gStrchomp (s : List Char) : List Char :=
  (s.reverse.dropWhile isAsciiSpace).reverse

/-- `g_strstrip`: `g_strchomp (g_strchug s)`. -/
def gStrstrip (s : List Char) : List Char :=
  gStrchomp (gStrchug s)

/-- `g_str_has_prefix pat s` tested head-on: does `s` start with `pat`? -/
def hasPfx : List Char → List Char → Bool
  | [], _ => true
  | _ :: _, [] => false
  | p :: ps, s :: ss => p == s && hasPfx ps ss

/-- `g_str_has_suffix`: does `s` end with `pat`? -/
def hasSfx (pat s : List Char) : Bool :=
  hasPfx pat.reverse s.reverse

/-- C `strstr haystack pat`, returning the suffix of the haystack that
begins at the first occurrence of `pat` (the returned pointer), or
`none` when `pat` does not occur. -/
def strstr (pat : List Char) : List Char → Option (List Char)
  | [] => if hasPfx pat [] then some [] else none
  | c :: rest =>
    if hasPfx pat (c :: rest) then some (c :: rest) else strstr pat rest

/-! ## Configuration store (`config/config.c`) -/

/-- `PluginConfig` from `config.h`: six nullable string fields. -/
structure PluginConfig where
  openai_api_key : Option (List Char)
  model : Option (List Char)
  system_prompt : Option (List Char)
  hotkey : Option (List Char)
  user_name : Option (List Char)
  user_email : Option (List Char)
deriving DecidableEq

/-- `DEFAULT_MODEL` from `config.h`. -/
def DEFAULT_MODEL : List Char := "gpt-4o-mini".toList

/-- `DEFAULT_HOTKEY` from `config.h`. -/
def DEFAULT_HOTKEY : List Char := "ctrl+shift+g".toList

/-- The hard-coded default system prompt used in `config.c` and
`llm_client.c`. -/
def defaultSystemPrompt : List Char :=
  "You are a helpful email writing assistant.".toList

/-- The placeholder API key written into a freshly created config file. -/
def placeholderKey : List Char := "your_openai_api_key_here".toList

/-- `config_is_valid` (config.c lines 119-125): the key must be
non-NULL, differ from the placeholder, and have length `> 10`. -/
def config_is_valid (c : PluginConfig) : Bool :=
  match c.openai_api_key with
  | none => false
  | some k => !(k == placeholderKey) && decide (10 < k.length)

/-- A key-value file as far as the configuration store reads and
writes it: the six entries `openai.api_key`, `openai.model`,
`openai.system_prompt`, `ui.hotkey`, `user.name`, `user.email`, each
present (`some`) or absent (`none`). -/
structure KeyFile where
  api_key : Option (List Char)
  model : Option (List Char)
  system_prompt : Option (List Char)
  hotkey : Option (List Char)
  user_name : Option (List Char)
  user_email : Option (List Char)
deriving DecidableEq

/-- `config_save` (config.c lines 127-159), at the level of the data it
writes: every key is written, NULL string members being replaced by
`""` (api_key, user name, user email) or the hard-coded defaults
(model, system prompt, hotkey). -/
def config_save_file (c : PluginConfig) : KeyFile :=
  { api_key := some (c.openai_api_key.getD [])
  , model := some (c.model.getD DEFAULT_MODEL)
  , system_prompt := some (c.system_prompt.getD defaultSystemPrompt)
  , hotkey := some (c.hotkey.getD DEFAULT_HOTKEY)
  , user_name := some (c.user_name.getD [])
  , user_email := some (c.user_email.getD []) }

/-- `config_load` (config.c lines 59-105), reading from an
already-parsed key file: each field is read with a NULL fallback, and
missing model / hotkey / system prompt are then replaced by their
defaults. -/
def config_load_from (f : KeyFile) : PluginConfig :=
  { openai_api_key := f.api_key
  , model := some (f.model.getD DEFAULT_MODEL)
  , system_prompt := some (f.system_prompt.getD defaultSystemPrompt)
  , hotkey := some (f.hotkey.getD DEFAULT_HOTKEY)
  , user_name := f.user_name
  , user_email := f.user_email }

/-- `config_save` followed by `config_load` on the file it produced. -/
def config_roundtrip (c : PluginConfig) : PluginConfig :=
  config_load_from (config_save_file c)

/-- The round trip as claimed by the specification: every field is
reproduced exactly, except that an absent model / hotkey / system
prompt comes back as its documented default.  Written from the spec
sentence for comparison with `config_roundtrip`. -/
def config_roundtrip_claimed (c : PluginConfig) : PluginConfig :=
  { openai_api_key := c.openai_api_key
  , model := some (c.model.getD DEFAULT_MODEL)
  , system_prompt := some (c.system_prompt.getD defaultSystemPrompt)
  , hotkey := some (c.hotkey.getD DEFAULT_HOTKEY)
  , user_name := c.user_name
  , user_email := c.user_email }

/-! ## JSON documents and json-glib accessors -/

/-- Parsed JSON values as json-glib delivers them. -/
inductive Json where
  | null : Json
  | bool : Bool → Json
  | num : Int → Json
  | flt : ℚ → Json
  | str : List Char → Json
  | arr : List Json → Json
  | obj : List (List Char × Json) → Json

/-- Member lookup in a JSON object (`json_object_get_member`). -/
def objGet (members : List (List Char × Json)) (name : List Char) :
    Option Json :=
  match members with
  | [] => none
  | (k, v) :: rest => if k == name then some v else objGet rest name

/-- `json_node_get_object`: `none` models the NULL that json-glib
returns (after a critical log) when the node does not hold an object. -/
def asObj : Json → Option (List (List Char × Json))
  | .obj ms => some ms
  | _ => none

/-- `json_node_get_array`, with the same NULL-on-mismatch behaviour. -/
def asArr : Json → Option (List Json)
  | .arr xs => some xs
  | _ => none

/-- `json_node_get_string`, with the same NULL-on-mismatch behaviour. -/
def asStr : Json → Option (List Char)
  | .str s => some s
  | _ => none

def choicesKey : List Char := "choices".toList
def messageKey : List Char := "message".toList
def contentKey : List Char := "content".toList
def dataKey : List Char := "data".toList
def idKey : List Char := "id".toList

/-! ## Response interpreter (`llm_client.c` lines 303-331) -/

/-- The response-interpretation step of `llm_client_generate_response`:
require a "choices" array with at least one element, take the first
element's "message" object's "content" string, strip it, and return
it; every missing or ill-typed step makes the json-glib accessor
return NULL (`none` here) and leaves `success` false. -/
def extract_message (doc : Json) : Option (List Char) :=
  match asObj doc with
  | none => none
  | some rootObj =>
    match objGet rootObj choicesKey with
    | none => none
    | some choicesNode =>
      match asArr choicesNode with
      | none => none
      | some [] => none
      | some (first :: _) =>
        match asObj first with
        | none => none
        | some choice =>
          match objGet choice messageKey >>= asObj with
          | none => none
          | some message =>
            match objGet message contentKey >>= asStr with
            | none => none
            | some content => some (gStrstrip content)

/-! ## Model lister (`llm_client.c` lines 155-227) -/

/-- The per-entry id accessor of the model-listing loop:
`json_array_get_object_element` followed by
`json_object_get_string_member`, each returning NULL (`none`) on a
missing member or a type mismatch. -/
def entry_id (e : Json) : Option (List Char) :=
  asObj e >>= fun o => objGet o idKey >>= asStr

/-- The filter condition at lines 198-203: the id starts with "gpt-4"
or "gpt-3.5" and ends with none of "-vision", "-instruct",
"-audio-preview". -/
def keep_model (id : List Char) : Bool :=
  (hasPfx "gpt-4".toList id || hasPfx "gpt-3.5".toList id)
    && !hasSfx "-vision".toList id
    && !hasSfx "-instruct".toList id
    && !hasSfx "-audio-preview".toList id

/-- The filtering step of `llm_client_fetch_available_models` (lines
193-207): keep an entry's id when `keep_model` accepts it; entries
without a string id are skipped; order and duplicates are
preserved. -/
def extract_model_ids (entries : List Json) : List (List Char) :=
  entries.filterMap fun e =>
    match entry_id e with
    | none => none
    | some id => if keep_model id then some id else none

/-- `llm_client_fetch_available_models` (lines 155-227).  `net = none`
models a transport failure or an unparseable body; `net = some doc` a
parsed response.  The guard at lines 156-158 rejects a NULL key or one
shorter than 10 characters before any network activity; a root without
a "data" member yields NULL; a "data" member that is not an array makes
`json_object_get_array_member` return NULL and the loop run zero times,
yielding an empty (non-NULL) list. -/
def llm_client_fetch_available_models (api_key : Option (List Char))
    (net : Option Json) : Option (List (List Char)) :=
  match api_key with
  | none => none
  | some k =>
    if k.length < 10 then none
    else
      match net with
      | none => none
      | some doc =>
        match asObj doc with
        | none => none
        | some rootObj =>
          match objGet rootObj dataKey with
          | none => none
          | some dataNode =>
            some (extract_model_ids ((asArr dataNode).getD []))

/-! ## Request builder (`llm_client.c` lines 144-147 and 242-283) -/

/-- `build_user_prompt`: "Simply return the selected text without any
prefixes" — the identity on the request's prompt. -/
def build_user_prompt (request_prompt : List Char) : List Char :=
  request_prompt

/-- The JSON payload assembled by the `JsonBuilder` calls of
`llm_client_generate_response` (lines 244-278): the configured model, a
two-element messages array (system message from the configured system
prompt with the hard-coded fallback; user message from
`build_user_prompt`), `max_tokens` 500 and `temperature` 0.7. -/
def chat_payload_json (model : List Char)
    (system_prompt : Option (List Char)) (request_prompt : List Char) :
    Json :=
  Json.obj
    [ ("model".toList, Json.str model)
    , ("messages".toList, Json.arr
        [ Json.obj
            [ ("role".toList, Json.str "system".toList)
            , ("content".toList,
               Json.str (system_prompt.getD defaultSystemPrompt)) ]
        , Json.obj
            [ ("role".toList, Json.str "user".toList)
            , ("content".toList,
               Json.str (build_user_prompt request_prompt)) ] ])
    , ("max_tokens".toList, Json.num 500)
    , ("temperature".toList, Json.flt (7 / 10)) ]

/-! ## Generation outcome (`llm_client.c` lines 229-344) -/

/-- The externally visible outcome of `llm_client_generate_response`:
the returned boolean and the request's `response` field after the
call (the request enters the call unsent, i.e. with `response`
NULL). -/
structure GenOutcome where
  success : Bool
  response : Option (List Char)
deriving DecidableEq

/-- `llm_client_generate_response` as a single-shot outcome function: a
NULL prompt fails up front (line 230); otherwise one transport exchange
happens and `success` is set exactly when a content string was
extracted, in which case the stripped content is stored in
`request->response`.  No retry exists: the outcome is a function of the
one transport result `net`. -/
def llm_client_generate_response (request_prompt : Option (List Char))
    (net : Option Json) : GenOutcome :=
  match request_prompt with
  | none => ⟨false, none⟩
  | some _ =>
    match net with
    | none => ⟨false, none⟩
    | some doc =>
      match extract_message doc with
      | none => ⟨false, none⟩
      | some s => ⟨true, some s⟩

/-! ## Prompt extractor (`llm_client.c` lines 73-92) -/

/-- `PROMPT_PREFIX` from `llm_client.h`: the marker `/aw:`. -/
def promptMarker : List Char := "/aw:".toList

/-- The observable result of `llm_client_parse_prompt`: the value
written through the `prompt` out-parameter (`none` when it was left
untouched) and the returned boolean. -/
structure ParseOut where
  written : Option (List Char)
  ret : Bool
deriving DecidableEq

/-- `llm_client_parse_prompt` (lines 73-92): find the marker, skip
spaces, copy up to the next newline (or the end), strip, store through
the out-parameter, and return whether the stored string is
non-empty. -/
def llm_client_parse_prompt (text : List Char) : ParseOut :=
  match strstr promptMarker text with
  | none => ⟨none, false⟩
  | some occ =>
    let afterMarker := occ.drop promptMarker.length
    let afterSpaces := afterMarker.dropWhile fun c => c == ' '
    let segment := afterSpaces.takeWhile fun c => c != '\n'
    let p := gStrstrip segment
    ⟨some p, !p.isEmpty⟩

/-- The successful result of `llm_client_parse_prompt`: the extracted
prompt when the call returns TRUE, `none` when it returns FALSE. -/
def extract_prompt (text : List Char) : Option (List Char) :=
  match llm_client_parse_prompt text with
  | ⟨w, true⟩ => w
  | ⟨_, false⟩ => none

/-- `extract_prompt` as the specification describes it: the trimmed
substring from just after the marker up to the next line break (or the
end of the text), failing when the marker is absent or that substring
trims to nothing.  Written from the spec sentence for comparison with
`extract_prompt`. -/
def extract_prompt_claimed (text : List Char) : Option (List Char) :=
  match strstr promptMarker text with
  | none => none
  | some occ =>
    let t := gStrstrip
      ((occ.drop promptMarker.length).takeWhile fun c => c != '\n')
    if t.isEmpty then none else some t

/-! ## Sender-info extractor (`llm_client.c` lines 109-142) -/

/-- The pair written through `llm_client_extract_sender_info`'s two
out-parameters (`none` = left untouched). -/
structure SenderInfo where
  sender_name : Option (List Char)
  sender_email : Option (List Char)
deriving DecidableEq

/-- The stripped From-line value computed at lines 114-124: the text
after the first occurrence of "From:", spaces skipped, up to the next
newline (or the end), stripped; `none` when "From:" does not occur. -/
def from_value_of (email_headers : List Char) : Option (List Char) :=
  match strstr "From:".toList email_headers with
  | none => none
  | some occ =>
    some (gStrstrip
      (((occ.drop 5).dropWhile fun c => c == ' ').takeWhile
        fun c => c != '\n'))

/-- `llm_client_extract_sender_info` (lines 109-142): on the stripped
From value, if a `<` occurs and a `>` occurs after it, the address is
the text between them and the name is the stripped text before the
`<`; if a `<` occurs without a following `>`, nothing is written; if no
`<` occurs and the value contains `@`, the whole value is the address
with the name "Unknown"; otherwise nothing is written. -/
def llm_client_extract_sender_info (email_headers : List Char) :
    SenderInfo :=
  match from_value_of email_headers with
  | none => ⟨none, none⟩
  | some v =>
    match v.dropWhile (fun c => c != '<') with
    | [] =>
      if v.any (fun c => c == '@') then
        ⟨some "Unknown".toList, some v⟩
      else ⟨none, none⟩
    | _ :: afterLt =>
      if afterLt.any (fun c => c == '>') then
        ⟨some (gStrstrip (v.takeWhile fun c => c != '<')),
         some (afterLt.takeWhile fun c => c != '>')⟩
      else ⟨none, none⟩

/-- The sender-info extractor as the amended claim describes it: if an
angle-bracket-delimited address (a `<` with a matching `>` after it) is
present, split name and address; otherwise, if the value contains `@`
and contains no `<` at all, the whole value is the address with the
placeholder name; otherwise (including a `<` with no closing `>`)
nothing is returned.  Written from the amended claim for comparison
with `llm_client_extract_sender_info`. -/
def extract_sender_info_amended (email_headers : List Char) :
    SenderInfo :=
  match from_value_of email_headers with
  | none => ⟨none, none⟩
  | some v =>
    if ((v.dropWhile fun c => c != '<').drop 1).any (fun c => c == '>')
    then
      ⟨some (gStrstrip (v.takeWhile fun c => c != '<')),
       some (((v.dropWhile fun c => c != '<').drop 1).takeWhile
         fun c => c != '>')⟩
    else if v.any (fun c => c == '@') && !(v.any fun c => c == '<') then
      ⟨some "Unknown".toList, some v⟩
    else ⟨none, none⟩

/-- A parsed model-listing response body with one conforming entry,
used as a concrete network response. -/
def modelsDocOne : Json :=
  Json.obj
    [(dataKey, Json.arr [Json.obj [(idKey, Json.str "gpt-4o".toList)]])]

/-! ## Helper lemmas -/

theorem gStrstrip_space_cons (x : Char) (l : List Char)
    (hx : isAsciiSpace x = true) : gStrstrip (x :: l) = gStrstrip l := by
  simp [gStrstrip, gStrchug, List.dropWhile_cons, hx]

theorem strip_after_spaces (l : List Char) :
    gStrstrip ((l.dropWhile fun c => c == ' ').takeWhile fun c => c != '\n')
      = gStrstrip (l.takeWhile fun c => c != '\n') := by
  induction l with
  | nil => rfl
  | cons c t ih =>
    by_cases hc : c = ' '
    · subst hc
      rw [show (' ' :: t).dropWhile (fun c => c == ' ')
            = t.dropWhile (fun c => c == ' ') from rfl]
      rw [ih]
      rw [show (' ' :: t).takeWhile (fun c => c != '\n')
            = ' ' :: t.takeWhile (fun c => c != '\n') from rfl]
      rw [gStrstrip_space_cons ' ' _ rfl]
    · have hb : (c == ' ') = false := by
        simp [hc]
      rw [show (c :: t).dropWhile (fun c => c == ' ') = c :: t by
        simp [List.dropWhile_cons, hb]]

/-! ## Claim theorems -/

/-- Claim C1: `config_is_valid` returns true exactly when the API key
is present, differs from the placeholder, and is longer than 10
characters; hence it is false whenever the key is at most 10
characters long or equals the placeholder, and true for any
32-character key regardless of the other fields. -/
theorem config_is_valid_characterization :
    ∀ c : PluginConfig,
      (config_is_valid c = true ↔
        ∃ k, c.openai_api_key = some k ∧ k ≠ placeholderKey ∧
          10 < k.length)
      ∧ (∀ k, c.openai_api_key = some k → k.length ≤ 10 →
          config_is_valid c = false)
      ∧ (∀ k, c.openai_api_key = some k → k = placeholderKey →
          config_is_valid c = false)
      ∧ (∀ k, c.openai_api_key = some k → k.length = 32 →
          config_is_valid c = true) := by
  intro c
  cases hk : c.openai_api_key with
  | none =>
    refine ⟨?_, ?_, ?_, ?_⟩ <;> simp [config_is_valid, hk]
  | some k =>
    refine ⟨?_, ?_, ?_, ?_⟩
    · simp [config_is_valid, hk]
    · intro k2 hk2 hlen
      obtain rfl := Option.some.inj hk2
      have hnl : ¬ (10 < k.length) := by omega
      simp [config_is_valid, hk, hnl]
    · intro k2 hk2 heq
      obtain rfl := Option.some.inj hk2
      simp [config_is_valid, hk, heq]
    · intro k2 hk2 hlen
      obtain rfl := Option.some.inj hk2
      have hne : k ≠ placeholderKey := by
        intro he
        rw [he] at hlen
        simp [placeholderKey] at hlen
      simp [config_is_valid, hk, hne, hlen]

/-- Witness for C1 at three concrete configurations: a 32-character
key, a short key, and the placeholder key. -/
theorem config_is_valid_characterization_witness :
    config_is_valid
        ⟨some "abcdefghijklmnopqrstuvwxyz012345".toList,
          none, none, none, none, none⟩ = true
    ∧ config_is_valid
        ⟨some "short".toList, none, none, none, none, none⟩ = false
    ∧ config_is_valid
        ⟨some placeholderKey, none, none, none, none, none⟩ = false :=
  ⟨(config_is_valid_characterization _).2.2.2 _ rfl (by decide),
   (config_is_valid_characterization _).2.1 _ rfl (by decide),
   (config_is_valid_characterization _).2.2.1 _ rfl rfl⟩

/-- Claim C2 counterexample: for a configuration whose API key is
absent at save time (all other fields present), the save/load round
trip does not reproduce the key field exactly — it comes back as the
empty string, which is neither absent nor the documented placeholder
default. -/
theorem config_roundtrip_counterexample :
    config_roundtrip
        ⟨none, some "m".toList, some "s".toList, some "h".toList,
          some "n".toList, some "e".toList⟩
      ≠ config_roundtrip_claimed
        ⟨none, some "m".toList, some "s".toList, some "h".toList,
          some "n".toList, some "e".toList⟩
    ∧ (config_roundtrip
        ⟨none, some "m".toList, some "s".toList, some "h".toList,
          some "n".toList, some "e".toList⟩).openai_api_key = some []
    ∧ (config_roundtrip
        ⟨none, some "m".toList, some "s".toList, some "h".toList,
          some "n".toList, some "e".toList⟩).openai_api_key
      ≠ some placeholderKey := by
  refine ⟨by decide, rfl, by decide⟩

/-- Claim C2 amended: save followed by load reproduces every present
field exactly; an absent model, hotkey or system prompt comes back as
its documented default, while an absent API key, user name or user
email comes back as the empty string. -/
theorem config_roundtrip_amended_correct :
    (∀ c : PluginConfig,
      config_roundtrip c =
        { openai_api_key := some (c.openai_api_key.getD [])
        , model := some (c.model.getD DEFAULT_MODEL)
        , system_prompt := some (c.system_prompt.getD defaultSystemPrompt)
        , hotkey := some (c.hotkey.getD DEFAULT_HOTKEY)
        , user_name := some (c.user_name.getD [])
        , user_email := some (c.user_email.getD []) })
    ∧ (∀ a m s hk n e : List Char,
        config_roundtrip
            ⟨some a, some m, some s, some hk, some n, some e⟩
          = ⟨some a, some m, some s, some hk, some n, some e⟩) := by
  exact ⟨fun c => rfl, fun a m s hk n e => rfl⟩

/-- Claim C4 counterexample: a 10-character API key — shorter than the
claimed 11-character minimum — passes the guard of
`llm_client_fetch_available_models`, and the network call is attempted:
the outcome depends on the network response. -/
theorem fetch_models_threshold_counterexample :
    ("0123456789".toList).length = 10
    ∧ llm_client_fetch_available_models (some "0123456789".toList)
        (some modelsDocOne) = some ["gpt-4o".toList]
    ∧ llm_client_fetch_available_models (some "0123456789".toList)
        none = none := by
  refine ⟨rfl, rfl, rfl⟩

/-- Claim C4 amended: `llm_client_fetch_available_models` returns
failure without attempting the network call whenever the key is absent
or shorter than 10 characters; the guard threshold is 10 characters,
one below the more-than-10 threshold of `config_is_valid`. -/
theorem fetch_models_guard_amended :
    (∀ net, llm_client_fetch_available_models none net = none)
    ∧ (∀ (k : List Char) net, k.length < 10 →
        llm_client_fetch_available_models (some k) net = none) := by
  constructor
  · intro net; rfl
  · intro k net h
    simp [llm_client_fetch_available_models, if_pos h]

/-- Witness for the amended C4 at a 5-character key and a live network
response. -/
theorem fetch_models_guard_amended_witness :
    llm_client_fetch_available_models (some "short".toList)
      (some modelsDocOne) = none :=
  fetch_models_guard_amended.2 _ (some modelsDocOne) (by decide)

/-- Claim C7: `llm_client_generate_response` ends in exactly one of
two terminal states — it returns true with the response populated, or
false with the response absent; the outcome is a function of a single
transport exchange, so no automatic retry exists. -/
theorem generate_response_terminal_states :
    ∀ (request_prompt : Option (List Char)) (net : Option Json),
      ((llm_client_generate_response request_prompt net).success = true ↔
        ∃ s, (llm_client_generate_response request_prompt net).response
          = some s)
      ∧ ((llm_client_generate_response request_prompt net).success = false ↔
        (llm_client_generate_response request_prompt net).response
          = none) := by
  intro rp net
  cases rp with
  | none => simp [llm_client_generate_response]
  | some p =>
    cases net with
    | none => simp [llm_client_generate_response]
    | some doc =>
      cases h : extract_message doc <;>
        simp [llm_client_generate_response, h]

/-- Claim C3: whenever the parsed chat-completion response lacks a
"choices" member, has an empty "choices" list, lacks a "message"
member in the first choice, or lacks a "content" member in the
message, `extract_message` returns failure with no generated text (the
embedding is total, so the error branch is reached without a crash). -/
theorem extract_message_missing_cases :
    ∀ ms : List (List Char × Json),
      (objGet ms choicesKey = none
        ∨ objGet ms choicesKey = some (Json.arr [])
        ∨ (∃ fo rest,
            objGet ms choicesKey = some (Json.arr (Json.obj fo :: rest))
            ∧ objGet fo messageKey = none)
        ∨ (∃ fo rest mo,
            objGet ms choicesKey = some (Json.arr (Json.obj fo :: rest))
            ∧ objGet fo messageKey = some (Json.obj mo)
            ∧ objGet mo contentKey = none)) →
      extract_message (Json.obj ms) = none := by
  intro ms h
  rcases h with h | h | ⟨fo, rest, h1, h2⟩ | ⟨fo, rest, mo, h1, h2, h3⟩
  · simp [extract_message, asObj, h]
  · simp [extract_message, asObj, asArr, h]
  · simp [extract_message, asObj, asArr, h1, h2]
  · simp [extract_message, asObj, asArr, asStr, h1, h2, h3]

/-- Witness for C3 at the concrete response `{"choices":[]}`. -/
theorem extract_message_missing_cases_witness :
    objGet [(choicesKey, Json.arr [])] choicesKey = some (Json.arr [])
    ∧ extract_message (Json.obj [(choicesKey, Json.arr [])]) = none :=
  ⟨rfl, extract_message_missing_cases _ (Or.inr (Or.inl rfl))⟩

/-- Claim C5: the outbound chat payload contains exactly two messages —
a system message whose content is the configured system prompt (or the
fixed default when unset) and a user message whose content is the
request prompt verbatim — plus the configured model, `max_tokens` 500
and `temperature` 0.7. -/
theorem chat_payload_contents :
    ∀ (model request_prompt : List Char) (sp : Option (List Char)),
      ∃ ms, chat_payload_json model sp request_prompt = Json.obj ms
        ∧ objGet ms "messages".toList = some (Json.arr
            [ Json.obj
                [ ("role".toList, Json.str "system".toList)
                , ("content".toList,
                   Json.str (sp.getD defaultSystemPrompt)) ]
            , Json.obj
                [ ("role".toList, Json.str "user".toList)
                , ("content".toList, Json.str request_prompt) ] ])
        ∧ objGet ms "model".toList = some (Json.str model)
        ∧ objGet ms "max_tokens".toList = some (Json.num 500)
        ∧ objGet ms "temperature".toList = some (Json.flt (7 / 10)) := by
  intro model request_prompt sp
  exact ⟨_, rfl, rfl, rfl, rfl, rfl⟩

/-- Claim C6: over a "data" list of well-formed entries,
`extract_model_ids` is exactly the order-preserving,
duplicate-keeping filter by `keep_model` (prefix "gpt-4" or "gpt-3.5",
and none of the suffixes "-vision", "-instruct", "-audio-preview");
on the specification's example input it returns exactly
`["gpt-4o"]`. -/
theorem extract_model_ids_filter_spec :
    (∀ ids : List (List Char),
      extract_model_ids (ids.map fun s => Json.obj [(idKey, Json.str s)])
        = ids.filter keep_model)
    ∧ extract_model_ids
        [ Json.obj [(idKey, Json.str "gpt-4o".toList)]
        , Json.obj [(idKey, Json.str "gpt-4o-vision".toList)]
        , Json.obj [(idKey, Json.str "text-embedding-3".toList)]
        , Json.obj [(idKey, Json.str "gpt-3.5-turbo-instruct".toList)] ]
        = ["gpt-4o".toList] := by
  constructor
  · intro ids
    induction ids with
    | nil => rfl
    | cons s t ih =>
      simp only [List.map_cons, extract_model_ids, List.filterMap_cons,
        List.filter_cons]
      rw [show entry_id (Json.obj [(idKey, Json.str s)]) = some s from rfl]
      cases hk : keep_model s
      · simpa [hk, extract_model_ids, List.filterMap_map] using ih
      · simpa [hk, extract_model_ids, List.filterMap_map] using ih
  · rfl

/-- Claim C8: `llm_client_parse_prompt`, viewed as a partial extractor,
agrees everywhere with the specified behaviour — success with the
trimmed substring from just after the first "/aw:" marker up to the
next line break (or the end of the text), failure when the marker is
absent or that substring trims to nothing — and on the example input
it returns "write a reply". -/
theorem parse_prompt_matches_spec :
    (∀ text : List Char, extract_prompt text = extract_prompt_claimed text)
    ∧ extract_prompt "/aw: write a reply\nmore text".toList
        = some "write a reply".toList := by
  constructor
  · intro text
    unfold extract_prompt llm_client_parse_prompt extract_prompt_claimed
    cases h : strstr promptMarker text with
    | none => rfl
    | some occ =>
      simp only [strip_after_spaces (occ.drop promptMarker.length)]
      cases hE :
          (gStrstrip ((occ.drop promptMarker.length).takeWhile
            fun c => c != '\n')).isEmpty
      · simp [hE]
      · simp [hE]
  · rfl

/-- Claim C10: whenever the marker "/aw:" occurs in the text but the
extracted segment strips to the empty string,
`llm_client_parse_prompt` returns FALSE and still writes a (newly
allocated) empty string through the prompt out-parameter. -/
theorem parse_prompt_empty_write :
    ∀ (text occ : List Char),
      strstr promptMarker text = some occ →
      gStrstrip (((occ.drop promptMarker.length).dropWhile
          fun c => c == ' ').takeWhile fun c => c != '\n') = [] →
      llm_client_parse_prompt text = ⟨some [], false⟩ := by
  intro text occ h1 h2
  simp [llm_client_parse_prompt, h1, h2]

/-- Witness for C10 at the concrete input "/aw:   " (marker followed
only by spaces). -/
theorem parse_prompt_empty_write_witness :
    llm_client_parse_prompt "/aw:   ".toList = ⟨some [], false⟩ :=
  parse_prompt_empty_write "/aw:   ".toList "/aw:   ".toList rfl (by decide)

/-- If dropping up to the first `<` consumes the whole list, the list
contains no `<`. -/
theorem no_lt_of_dropWhile_nil {v : List Char}
    (h : v.dropWhile (fun c => c != '<') = []) :
    v.any (fun c => c == '<') = false := by
  induction v with
  | nil => rfl
  | cons a t ih =>
    cases ha : (a != '<')
    · rw [List.dropWhile_cons, ha] at h
      simp at h
    · rw [List.dropWhile_cons, ha] at h
      simp only [if_true] at h
      have hne : (a == '<') = false := by
        simpa using ha
      simp [List.any_cons, hne, ih h]

/-- If dropping up to the first `<` leaves a nonempty list, the list
contains a `<`. -/
theorem has_lt_of_dropWhile_cons {v : List Char} {c : Char}
    {rest : List Char}
    (h : v.dropWhile (fun c => c != '<') = c :: rest) :
    v.any (fun c => c == '<') = true := by
  induction v with
  | nil => simp at h
  | cons a t ih =>
    cases ha : (a != '<')
    · have heq : (a == '<') = true := by
        simpa using ha
      simp [List.any_cons, heq]
    · rw [List.dropWhile_cons, ha] at h
      simp only [if_true] at h
      simp [List.any_cons, ih h]

/-- Claim C9 counterexample: on the header "From: a <b@c" (a From line
whose value has a `<` but no closing `>`), the code writes nothing,
although the value is not an angle-bracket-delimited address and does
contain an `@` — so the claimed fallback ("whole remainder as the
address with name Unknown") does not happen. -/
theorem extract_sender_info_counterexample :
    llm_client_extract_sender_info "From: a <b@c\nSubject: x".toList
        = ⟨none, none⟩
    ∧ from_value_of "From: a <b@c\nSubject: x".toList
        = some "a <b@c".toList
    ∧ ("a <b@c".toList).any (fun c => c == '@') = true
    ∧ ((("a <b@c".toList).dropWhile fun c => c != '<').drop 1).any
        (fun c => c == '>') = false :=
  ⟨rfl, rfl, rfl, rfl⟩

/-- Claim C9 amended: `llm_client_extract_sender_info` returns the
split display name and bracketed address when a `<` with a matching
`>` after it is present; returns the whole remainder as the address
with the placeholder name "Unknown" when the remainder contains an `@`
and no `<` at all; and returns nothing otherwise — including when no
"From:" line exists and when a `<` has no closing `>`.  On the example
header it yields name "Jane Doe" and address "jane@example.com". -/
theorem extract_sender_info_amended_correct :
    (∀ h : List Char,
      llm_client_extract_sender_info h = extract_sender_info_amended h)
    ∧ llm_client_extract_sender_info
        "From: Jane Doe <jane@example.com>\nSubject: x".toList
        = ⟨some "Jane Doe".toList, some "jane@example.com".toList⟩ := by
  constructor
  · intro hd
    unfold llm_client_extract_sender_info extract_sender_info_amended
    cases hv : from_value_of hd with
    | none => rfl
    | some v =>
      dsimp only
      cases hdw : v.dropWhile (fun c => c != '<') with
      | nil =>
        have h1 := no_lt_of_dropWhile_nil hdw
        cases hat : v.any (fun c => c == '@') <;> simp [hat, h1]
      | cons c rest =>
        have h2 := has_lt_of_dropWhile_cons hdw
        cases hgt : rest.any (fun c => c == '>') <;> simp [hgt, h2]
  · rfl

end EvoLLM
